import Mathlib

/-!
Verification development for the image-processor repository.

The definitions below are shallow embeddings of the Python source:
filesystem-touching operations are modelled by explicit state passing,
fallible OS calls (copy, unlink, HTTP requests) by boolean or inductive
oracles indexed by the attempt number, and strings by lists of
characters where character-level reasoning is needed.
-/

namespace FileOps

/-- Outcome of FileOperations.safe_file_move: success corresponds to
return True, returnedFalse to the fall-through return False at the end
of the retry loop (reached only when max_retries = 0), and the three
error constructors to the exceptions FileOperationError (destination
exists), FileOperationError (move failed after retries) and
FilePermissionError (cannot remove original after retries). -/
inductive MoveResult
  | success
  | returnedFalse
  | destExists
  | moveFailed
  | permissionErr
  deriving DecidableEq, Repr

/-- Abstract filesystem state for one src/dst pair: whether each path
currently exists, plus a count of the copy operations performed so far. -/
structure MoveState where
  srcEx : Bool
  dstEx : Bool
  copies : Nat
  deriving DecidableEq, Repr

/-- Fault oracle for safe_file_move: for each attempt index, whether
shutil.copy2(src, dst) succeeds and whether src.unlink() succeeds.
Removal of the just-created destination copy (dst.unlink() inside the
inner handler) is modelled as reliable, matching the fault model of the
spec (copy failure and delete-original failure). -/
structure MoveEnv where
  copyOk : Nat → Bool
  unlinkOk : Nat → Bool

/-- The retry loop of FileOperations.safe_file_move (file_operations.py
lines 149-199), specialised to backup_originals = False (the default;
all backup branches are then skipped).  fuel is the number of remaining
loop iterations, attempt the current iteration index; fuel = 0 with a
nonzero original max_retries is unreachable because the last iteration
always returns or raises, and with max_retries = 0 it models the loop
body never running, after which the function returns False. -/
def moveGo (env : MoveEnv) : Nat → Nat → MoveState → MoveResult × MoveState
  | 0, _, s => (.returnedFalse, s)
  | fuel + 1, attempt, s =>
    if env.copyOk attempt then
      -- shutil.copy2(src, dst) succeeded: dst now exists
      let s1 : MoveState := { s with dstEx := true, copies := s.copies + 1 }
      if env.unlinkOk attempt then
        -- src.unlink() succeeded: remove backup (none here), return True
        (.success, { s1 with srcEx := false })
      else
        -- src.unlink() raised OSError: remove the dst copy, then either
        -- raise FilePermissionError on the last attempt or loop again
        let s2 : MoveState := { s1 with dstEx := false }
        if fuel = 0 then (.permissionErr, s2)
        else moveGo env fuel (attempt + 1) s2
    else
      -- shutil.copy2 raised OSError: on the last attempt raise
      -- FileOperationError (backup restore skipped: no backup), else retry
      if fuel = 0 then (.moveFailed, s)
      else moveGo env fuel (attempt + 1) s

/-- FileOperations.safe_file_move (file_operations.py lines 114-199)
with backup_originals = False.  confirmOverwrites is the
file_operations.confirm_overwrites setting guarding the pre-check. -/
def safe_file_move (env : MoveEnv) (confirmOverwrites : Bool) (maxRetries : Nat)
    (s : MoveState) : MoveResult × MoveState :=
  if s.dstEx && confirmOverwrites then (.destExists, s)
  else moveGo env maxRetries 0 s

/-- The unbounded counter loop of FileOperations.get_unique_filename
(file_operations.py lines 255-267) with the default empty suffix
argument, over a filesystem modelled as the list of existing paths:
try stem_1, stem_2, ... and return the first candidate that does not
exist.  fuel bounds the search so the function is total; fs.length + 1
candidates always suffice, and none is returned only when fuel runs
out before a free name is found. -/
def findUnique (fs : List String) (stem ext : String) :
    Nat → Nat → Option String
  | 0, _ => none
  | fuel + 1, counter =>
    let cand := stem ++ "_" ++ toString counter ++ ext
    if fs.contains cand then findUnique fs stem ext fuel (counter + 1)
    else some cand

/-- FileOperations.get_unique_filename (file_operations.py lines
235-267) with the default empty suffix: return the base path when it
does not exist, otherwise the first counter-suffixed candidate that
does not exist. -/
def get_unique_filename (fs : List String) (stem ext : String) :
    Option String :=
  if fs.contains (stem ++ ext) then findUnique fs stem ext (fs.length + 1) 1
  else some (stem ++ ext)

end FileOps

/-- Observable attributes of a path on the filesystem, as consulted by
the validators: existence, regular-file-ness, extension, byte size, and
whether PIL can open and verify the content. -/
structure FileInfo where
  ex : Bool
  isFile : Bool
  suffix : String
  size : Nat
  decodable : Bool
  deriving DecidableEq, Repr

namespace FileOps

/-- Python str.lower() on a string, character by character (ASCII). -/
def lowerStr (s : String) : String := ⟨s.data.map Char.toLower⟩

/-- FileOperations.is_supported_image (file_operations.py line 67):
membership of the lowercased extension in the supported set.
ImageProcessor.is_supported_image (processor.py line 129) is the same
formula. -/
def is_supported_image (supported : List String) (suffix : String) : Bool :=
  supported.contains (lowerStr suffix)

/-- The exceptions FileOperations.verify_image can raise:
UnsupportedImageFormat, FileOperationError for a missing path, a
non-file path or an oversized file, and ImageCorrupted. -/
inductive VerifyError
  | unsupportedFormat
  | fileNotFound
  | notAFile
  | tooLarge
  | corrupted
  deriving DecidableEq, Repr

/-- FileOperations.verify_image (file_operations.py lines 69-112).  The
checks run in source order: supported extension first (line 83), then
existence (line 89), regular-file-ness (line 92), size (line 95) and
decodability (lines 101-112). -/
def verify_image (supported : List String) (maxFileSize : Nat)
    (f : FileInfo) : Except VerifyError Bool :=
  if !is_supported_image supported f.suffix then .error .unsupportedFormat
  else if !f.ex then .error .fileNotFound
  else if !f.isFile then .error .notAFile
  else if maxFileSize < f.size then .error .tooLarge
  else if f.decodable then .ok true
  else .error .corrupted

end FileOps

namespace MetaProcessor

/-- The exceptions ImageProcessor.validate_image_file can raise:
ImageProcessingError for a missing path, a non-file path or an
oversized file, and UnsupportedImageFormat. -/
inductive MetaValidateError
  | imageNotFound
  | notAFile
  | unsupportedFormat
  | tooLarge
  deriving DecidableEq, Repr

/-- ImageProcessor.validate_image_file (processor.py lines 131-158).
The checks run in source order: existence first (line 142), then
regular-file-ness (line 145), supported extension (line 148) and size
(line 154); this validator has no decodability step. -/
def validate_image_file (supported : List String) (maxFileSize : Nat)
    (f : FileInfo) : Except MetaValidateError Unit :=
  if !f.ex then .error .imageNotFound
  else if !f.isFile then .error .notAFile
  else if !FileOps.is_supported_image supported f.suffix then
    .error .unsupportedFormat
  else if maxFileSize < f.size then .error .tooLarge
  else .ok ()

end MetaProcessor

namespace DB

/-- One row of the images table (db/manager.py lines 51-59): integer
autoincrement primary key, unique file_path, description, and the two
timestamps both defaulting to CURRENT_TIMESTAMP; timestamps are
modelled as natural numbers. -/
structure ImageRow where
  id : Nat
  file_path : String
  description : String
  created_at : Nat
  updated_at : Nat
  deriving DecidableEq, Repr

/-- The images table together with the sqlite autoincrement counter:
every id ever assigned is below nextId and new rows take nextId. -/
structure ImagesTable where
  rows : List ImageRow
  nextId : Nat
  deriving DecidableEq, Repr

/-- All stored ids are below the autoincrement counter; holds for every
table sqlite actually produces and is preserved by save_description. -/
def WF (t : ImagesTable) : Prop := ∀ r ∈ t.rows, r.id < t.nextId

/-- DatabaseManager.save_description (db/manager.py lines 92-124),
modelled with the sqlite semantics of its statement INSERT OR REPLACE
INTO images (file_path, description, updated_at) VALUES (?, ?,
CURRENT_TIMESTAMP): the conflicting row with the same unique file_path
is deleted, and a fresh row is inserted with a new AUTOINCREMENT id,
created_at filled from its column default CURRENT_TIMESTAMP (now) and
updated_at set explicitly to CURRENT_TIMESTAMP (now). -/
def save_description (t : ImagesTable) (path desc : String) (now : Nat) :
    ImagesTable :=
  { rows := t.rows.filter (fun r => !(r.file_path == path)) ++
      [{ id := t.nextId, file_path := path, description := desc,
         created_at := now, updated_at := now }],
    nextId := t.nextId + 1 }

/-- DatabaseManager.get_description (db/manager.py lines 126-150):
the description of the first row matching the path, if any. -/
def get_description (t : ImagesTable) (path : String) : Option String :=
  (t.rows.find? (fun r => r.file_path == path)).map (fun r => r.description)

end DB

namespace OllamaClient

/-- Body of one HTTP response as seen by OllamaClient.generate_filename:
the JSON either fails to parse, parses but lacks the response field, or
carries the response field as a string. -/
inductive RespBody
  | badJson
  | missingField
  | field (s : String)
  deriving DecidableEq, Repr

/-- What one iteration of the request loop observes: encode_image
raising ImageCorrupted, requests.post raising Timeout, ConnectionError
or another RequestException, or an HTTP response with a status code and
a body. -/
inductive HttpOutcome
  | encodeFail
  | timeout
  | connRefused
  | otherReqErr
  | httpResponse (status : Nat) (body : RespBody)
  deriving DecidableEq, Repr

/-- The exception classes generate_filename can raise,
OllamaConnectionError, OllamaTimeoutError, OllamaResponseError and
ImageCorrupted (ollama_client.py lines 21-38). -/
inductive OllamaError
  | connectionError
  | timeoutError
  | responseError
  | imageCorrupted
  deriving DecidableEq, Repr

/-- Status and body handling of ollama_client.py lines 141-177: 404 and
any status at or above 500 raise OllamaConnectionError, any other
non-200 status, a malformed JSON body, a missing response field and an
empty stripped description raise OllamaResponseError; otherwise the
stripped description is returned. -/
def handleResponse (status : Nat) (body : RespBody) : Except OllamaError String :=
  if status = 404 then .error .connectionError
  else if 500 ≤ status then .error .connectionError
  else if status ≠ 200 then .error .responseError
  else
    match body with
    | .badJson => .error .responseError
    | .missingField => .error .responseError
    | .field s =>
      if s.trim.isEmpty then .error .responseError else .ok s.trim

/-- The retry loop of OllamaClient.generate_filename (ollama_client.py
lines 115-204).  fuel is the number of remaining iterations, attempt
the current index and posts the number of HTTP requests issued so far;
the pair returned is the overall outcome together with the final post
count.  Only Timeout, ConnectionError and RequestException are caught
and retried; the Ollama* exceptions raised while handling a received
response propagate at once.  fuel = 0 models the loop ending without a
return, after which line 204 raises OllamaConnectionError. -/
def generateGo (env : Nat → HttpOutcome) :
    Nat → Nat → Nat → Except OllamaError String × Nat
  | 0, _, posts => (.error .connectionError, posts)
  | fuel + 1, attempt, posts =>
    match env attempt with
    | .encodeFail => (.error .imageCorrupted, posts)
    | .timeout =>
      if fuel = 0 then (.error .timeoutError, posts + 1)
      else generateGo env fuel (attempt + 1) (posts + 1)
    | .connRefused =>
      if fuel = 0 then (.error .connectionError, posts + 1)
      else generateGo env fuel (attempt + 1) (posts + 1)
    | .otherReqErr =>
      if fuel = 0 then (.error .connectionError, posts + 1)
      else generateGo env fuel (attempt + 1) (posts + 1)
    | .httpResponse status body => (handleResponse status body, posts + 1)

/-- OllamaClient.generate_filename: run the loop for retry_attempts
iterations starting at attempt 0 with no request issued yet. -/
def generate_filename (env : Nat → HttpOutcome) (retryAttempts : Nat) :
    Except OllamaError String × Nat :=
  generateGo env retryAttempts 0 0

end OllamaClient

namespace MetaProcessor

/-- Python truthiness of the get_description result as used on
processor.py line 214: a skip happens only for a present, non-empty
description string. -/
def truthy : Option String → Bool
  | none => false
  | some d => !d.isEmpty

/-- The retry loop of ImageProcessor.write_metadata_to_image
(processor.py lines 171-196): ok says whether the XMP write succeeds on
a given attempt; true is returned on the first success, false when the
last attempt fails (MetadataWriteError).  When retry_attempts = 0 the
loop body never runs and the function returns normally, hence true. -/
def writeMetaGo (ok : Nat → Bool) : Nat → Nat → Bool
  | 0, _ => true
  | fuel + 1, attempt =>
    if ok attempt then true
    else if fuel = 0 then false
    else writeMetaGo ok fuel (attempt + 1)

/-- ImageProcessor.write_metadata_to_image as a success flag. -/
def write_metadata_to_image (ok : Nat → Bool) (retryAttempts : Nat) : Bool :=
  writeMetaGo ok retryAttempts 0

/-- The mutable state touched by the metadata workflow for one file:
the database table and the embedded XMP description of the file. -/
structure MetaState where
  table : DB.ImagesTable
  fileMeta : Option String
  deriving DecidableEq, Repr

/-- ImageProcessor.process_single_image (processor.py lines 198-232):
validate, skip when a truthy description exists in the database,
otherwise ask the provider (gen is the outcome of
OllamaClient.generate_description), save to the database, write the
XMP metadata with bounded retries.  Every exception is caught and
yields False.  The returned triple is (success flag, final state,
whether the description provider was invoked). -/
def process_single_image (sup : List String) (maxFS : Nat) (f : FileInfo)
    (path : String) (gen : Except OllamaClient.OllamaError String)
    (writeOk : Nat → Bool) (retryAttempts : Nat) (now : Nat)
    (s : MetaState) : Bool × MetaState × Bool :=
  match validate_image_file sup maxFS f with
  | .error _ => (false, s, false)
  | .ok _ =>
    if truthy (DB.get_description s.table path) then (true, s, false)
    else
      match gen with
      | .error _ => (false, s, true)
      | .ok desc =>
        let s1 : MetaState :=
          { s with table := DB.save_description s.table path desc now }
        if write_metadata_to_image writeOk retryAttempts then
          (true, { s1 with fileMeta := some desc }, true)
        else (false, s1, true)

end MetaProcessor

namespace Renamer

/-- Characters stripped by Python str.strip() for ASCII input: space,
tab, newline, carriage return, vertical tab, form feed. -/
def pyIsSpace (c : Char) : Bool :=
  c = ' ' || c = '\t' || c = '\n' || c = '\r' || c = '\x0b' || c = '\x0c'

/-- Remove trailing characters satisfying p, as Python rstrip does. -/
def rstripWith (p : Char → Bool) (l : List Char) : List Char :=
  (l.reverse.dropWhile p).reverse

/-- Python str.strip() on a list of characters. -/
def pyStrip (l : List Char) : List Char :=
  rstripWith pyIsSpace (l.dropWhile pyIsSpace)

/-- The punctuation set of renamer.py line 66, rstrip(".,!?;:"). -/
def punctChars : List Char := ['.', ',', '!', '?', ';', ':']

/-- The filename.case_conversion setting: lower, upper, title, or none
(keep meaning no conversion). -/
inductive CaseConv
  | lower
  | upper
  | title
  | keep
  deriving DecidableEq, Repr

/-- Python str.title() for ASCII: a letter is uppercased when the
previous character is not a letter, lowercased otherwise; the flag
carries whether the previous character was a letter. -/
def pyTitleGo : Bool → List Char → List Char
  | _, [] => []
  | prevAlpha, c :: cs =>
    (if c.isAlpha then (if prevAlpha then c.toLower else c.toUpper) else c)
      :: pyTitleGo c.isAlpha cs

/-- Python str.title() applied to a list of characters. -/
def pyTitle (l : List Char) : List Char := pyTitleGo false l

/-- The case-conversion step of renamer.py lines 69-75. -/
def applyCase : CaseConv → List Char → List Char
  | .lower, l => l.map Char.toLower
  | .upper, l => l.map Char.toUpper
  | .title, l => pyTitle l
  | .keep, l => l

/-- The filename.* configuration consumed by ImageRenamer.__init__
(renamer.py lines 42-46); replace_spaces_with is the separator
character of the naming policy. -/
structure Policy where
  pattern_cleanup : Bool
  max_length : Nat
  remove_punctuation : Bool
  replace_spaces_with : Char
  case_conversion : CaseConv

/-- renamer.py line 79: re.sub removing every character that is neither
ASCII alphanumeric nor whitespace. -/
def keepAlnumWs (l : List Char) : List Char :=
  l.filter (fun c => c.isAlphanum || pyIsSpace c)

/-- renamer.py lines 83-85: collapse each run of the separator
character to a single occurrence. -/
def collapseSep (sep : Char) : List Char → List Char
  | [] => []
  | c :: cs =>
    match cs with
    | [] => [c]
    | d :: _ =>
      if c = sep && d = sep then collapseSep sep cs
      else c :: collapseSep sep cs

/-- renamer.py line 87: strip leading and trailing separator characters. -/
def stripSep (sep : Char) (l : List Char) : List Char :=
  rstripWith (fun c => c = sep) (l.dropWhile (fun c => c = sep))

/-- The pattern-cleanup block of renamer.py lines 77-87: keep only
alphanumerics and whitespace, replace each space character by the
separator, collapse separator runs, strip leading/trailing separators.
Note that only the literal space character is replaced (line 81), not
other whitespace. -/
def cleanupStage (sep : Char) (l : List Char) : List Char :=
  stripSep sep
    (collapseSep sep
      ((keepAlnumWs l).map (fun c => if c = ' ' then sep else c)))

/-- Python str.split(sep) for a one-character separator: split at every
occurrence, keeping empty words. -/
def splitSep (sep : Char) : List Char → List (List Char)
  | [] => [[]]
  | c :: cs =>
    if c = sep then [] :: splitSep sep cs
    else
      match splitSep sep cs with
      | [] => [[c]]
      | w :: ws => (c :: w) :: ws

/-- The word-accumulation loop of renamer.py lines 93-100: extend the
result word by word (separator-joined) while the joined length stays
within max_length, stopping at the first word that would overflow. -/
def truncLoop (sep : Char) (maxLen : Nat) :
    List (List Char) → List Char → List Char
  | [], r => r
  | w :: ws, r =>
    let t := r ++ (if r.isEmpty then [] else [sep]) ++ w
    if maxLen < t.length then r else truncLoop sep maxLen ws t

/-- The length-limiting step of renamer.py lines 90-101: when the
cleaned name exceeds max_length, keep the longest separator-delimited
prefix of words that fits, falling back to a hard character truncation
when not even the first word fits. -/
def limitLength (sep : Char) (maxLen : Nat) (filename : List Char) : List Char :=
  if maxLen < filename.length then
    let r := truncLoop sep maxLen (splitSep sep filename) []
    if r.isEmpty then filename.take maxLen else r
  else filename

/-- The fixed placeholder stem of renamer.py line 105. -/
def unnamedStem : List Char := ['u', 'n', 'n', 'a', 'm', 'e', 'd']

/-- renamer.py lines 104-105: substitute the placeholder when the name
is empty. -/
def orUnnamed (filename : List Char) : List Char :=
  if filename.isEmpty then unnamedStem else filename

/-- ImageRenamer.sanitize_filename (renamer.py lines 50-108) up to the
extension append: strip, optional punctuation rstrip, case conversion,
optional pattern cleanup, length limit, empty fallback. -/
def sanitizeStem (p : Policy) (description : List Char) : List Char :=
  let f0 := pyStrip description
  let f1 :=
    if p.remove_punctuation then rstripWith (fun c => punctChars.contains c) f0
    else f0
  let f2 := applyCase p.case_conversion f1
  let f3 :=
    if p.pattern_cleanup then cleanupStage p.replace_spaces_with f2 else f2
  orUnnamed (limitLength p.replace_spaces_with p.max_length f3)

/-- ImageRenamer.sanitize_filename: the sanitized stem with the original
extension appended (renamer.py line 108). -/
def sanitize_filename (p : Policy) (description ext : List Char) : List Char :=
  sanitizeStem p description ++ ext

/-- The default filename policy of renamer.py lines 42-46. -/
def defaultPolicy : Policy := ⟨true, 100, true, '-', .lower⟩

/-- ImageRenamer.generate_filename (renamer.py lines 110-139): verify
the image when images.verify_before_processing is set, obtain the
description from the client (describe is the outcome of
OllamaClient.generate_filename), sanitize it with the original
extension; any exception is caught and yields None. -/
def generate_filename (verifyFirst : Bool) (sup : List String) (maxFS : Nat)
    (f : FileInfo) (describe : Except OllamaClient.OllamaError String)
    (p : Policy) : Option (List Char) :=
  let verifyFailed := verifyFirst &&
    (match FileOps.verify_image sup maxFS f with
      | .error _ => true
      | .ok _ => false)
  if verifyFailed then none
  else
    match describe with
    | .error _ => none
    | .ok desc => some (sanitize_filename p desc.data f.suffix.data)

/-- The per-file inputs of ImageRenamer.rename_single_image: the
observable state of the image path, its current filename, the
verification and naming configuration, the outcome the description
client would produce, whether the generated destination already exists
together with the unique name the resolver would yield, the dry-run
flag, and the outcome safe_file_move would produce. -/
structure RenameInput where
  f : FileInfo
  curName : List Char
  verifyFirst : Bool
  sup : List String
  maxFS : Nat
  describe : Except OllamaClient.OllamaError String
  policy : Policy
  dryRun : Bool
  moveOutcome : FileOps.MoveResult

/-- ImageRenamer.rename_single_image (renamer.py lines 141-194): missing
or non-file path → False; unsupported extension → False; failed filename
generation → False; generated name equal to the current name → True with
no move; dry run → True; otherwise the result of safe_file_move, with
every raised exception caught and yielding False.  Conflict resolution
(lines 174-176) only changes the destination name, never the returned
status, so it does not appear in the success flag. -/
def rename_single_image (inp : RenameInput) : Bool :=
  if !(inp.f.ex && inp.f.isFile) then false
  else if !FileOps.is_supported_image inp.sup inp.f.suffix then false
  else
    match generate_filename inp.verifyFirst inp.sup inp.maxFS inp.f
        inp.describe inp.policy with
    | none => false
    | some newName =>
      if newName = inp.curName then true
      else if inp.dryRun then true
      else
        match inp.moveOutcome with
        | .success => true
        | _ => false

/-- The statistics dictionary returned by ImageRenamer.rename_directory
(renamer.py lines 286-292), without the wall-clock processing time. -/
structure RenameStats where
  total_files : Nat
  processed : Nat
  failed : Nat
  skipped : Nat
  deriving DecidableEq, Repr

/-- The counting loop of renamer.py lines 258-263: each per-file result
increments processed when true, failed when false. -/
def renameLoop : List Bool → Nat → Nat → Nat × Nat
  | [], p, fl => (p, fl)
  | r :: rs, p, fl =>
    if r then renameLoop rs (p + 1) fl else renameLoop rs p (fl + 1)

/-- ImageRenamer.rename_directory (renamer.py lines 196-298) over the
discovered image files: the empty case returns all-zero statistics
(lines 233-241); otherwise every file goes through rename_single_image
and is counted as processed or failed; skipped_count is initialised to
0 and never incremented. -/
def rename_directory (files : List RenameInput) : RenameStats :=
  if files.isEmpty then ⟨0, 0, 0, 0⟩
  else
    let pf := renameLoop (files.map rename_single_image) 0 0
    ⟨files.length, pf.1, pf.2, 0⟩

end Renamer

/-- The fault pattern of C6: every copy succeeds, the delete-original
step fails on attempts 0 and 1 and succeeds from attempt 2 on. -/
def c6Env : FileOps.MoveEnv :=
  { copyOk := fun _ => true, unlinkOk := fun n => decide (2 ≤ n) }

namespace FileOps

theorem moveGo_src_ne_dst (env : MoveEnv) :
    ∀ (fuel attempt : Nat) (s : MoveState), s.srcEx = true → s.dstEx = false →
      ((moveGo env fuel attempt s).2.srcEx = !(moveGo env fuel attempt s).2.dstEx) := by
  intro fuel
  induction fuel with
  | zero => intro attempt s hs hd; simp [moveGo, hs, hd]
  | succ n ih =>
    intro attempt s hs hd
    simp only [moveGo]
    by_cases hc : env.copyOk attempt
    · by_cases hu : env.unlinkOk attempt
      · simp [hc, hu]
      · by_cases hf : n = 0
        · simp [hc, hu, hf, hs]
        · simpa [hc, hu, hf] using ih (attempt + 1) _ (by simpa using hs) (by simp)
    · by_cases hf : n = 0
      · simp [hc, hf, hs, hd]
      · simpa [hc, hf] using ih (attempt + 1) s hs hd

theorem findUnique_not_mem (fs : List String) (stem ext : String) :
    ∀ (fuel counter : Nat) (r : String),
      findUnique fs stem ext fuel counter = some r →
      fs.contains r = false := by
  intro fuel
  induction fuel with
  | zero => intro counter r h; simp [findUnique] at h
  | succ n ih =>
    intro counter r h
    rw [findUnique] at h
    split at h
    · exact ih _ r h
    · next hc =>
      injection h with h1
      subst h1
      simpa using hc

theorem get_unique_filename_not_mem (fs : List String) (stem ext r : String)
    (h : get_unique_filename fs stem ext = some r) : fs.contains r = false := by
  rw [get_unique_filename] at h
  split at h
  · exact findUnique_not_mem fs stem ext _ _ r h
  · next hc =>
    injection h with h1
    subst h1
    simpa using hc

end FileOps

namespace Renamer

theorem truncLoop_length_le (sep : Char) (maxLen : Nat) :
    ∀ (ws : List (List Char)) (r : List Char), r.length ≤ maxLen →
      (truncLoop sep maxLen ws r).length ≤ maxLen := by
  intro ws
  induction ws with
  | nil => intro r hr; simpa [truncLoop] using hr
  | cons w ws ih =>
    intro r hr
    simp only [truncLoop]
    split
    · split
      · exact hr
      · next h => exact ih _ (Nat.le_of_not_lt h)
    · split
      · exact hr
      · next h => exact ih _ (Nat.le_of_not_lt h)

theorem limitLength_length_le (sep : Char) (maxLen : Nat) (l : List Char) :
    (limitLength sep maxLen l).length ≤ maxLen := by
  simp only [limitLength]
  split
  · split
    · simp [List.length_take]
    · exact truncLoop_length_le sep maxLen _ [] (by simp)
  · next h => exact Nat.le_of_not_lt h

theorem stem_final_ne_nil (sep : Char) (maxLen : Nat) (l : List Char) :
    orUnnamed (limitLength sep maxLen l) ≠ [] := by
  simp only [orUnnamed]
  split
  · decide
  · next h => simpa [List.isEmpty_iff] using h

theorem stem_final_bound (sep : Char) (maxLen : Nat) (l : List Char) :
    (orUnnamed (limitLength sep maxLen l)).length ≤ maxLen ∨
      orUnnamed (limitLength sep maxLen l) = unnamedStem := by
  simp only [orUnnamed]
  split
  · right; rfl
  · left; exact limitLength_length_le sep maxLen l

theorem mem_of_mem_rstripWith {p : Char → Bool} {l : List Char} {c : Char}
    (h : c ∈ rstripWith p l) : c ∈ l := by
  simp only [rstripWith, List.mem_reverse] at h
  exact List.mem_reverse.mp ((List.dropWhile_sublist p).subset h)

theorem mem_of_mem_stripSep {sep c : Char} {l : List Char}
    (h : c ∈ stripSep sep l) : c ∈ l :=
  (List.dropWhile_sublist _).subset (mem_of_mem_rstripWith h)

theorem mem_of_mem_collapseSep (sep : Char) :
    ∀ (l : List Char) (c : Char), c ∈ collapseSep sep l → c ∈ l := by
  intro l
  induction l with
  | nil => intro c h; simp [collapseSep] at h
  | cons a t ih =>
    intro c h
    cases t with
    | nil => simpa [collapseSep] using h
    | cons d u =>
      rw [collapseSep] at h
      split at h
      · exact List.mem_cons_of_mem a (ih c h)
      · rcases List.mem_cons.mp h with h1 | h1
        · subst h1; exact List.mem_cons_self _ _
        · exact List.mem_cons_of_mem a (ih c h1)

theorem mem_of_mem_splitSep (sep : Char) :
    ∀ (l w : List Char), w ∈ splitSep sep l → ∀ c ∈ w, c ∈ l := by
  intro l
  induction l with
  | nil =>
    intro w hw c hc
    simp only [splitSep, List.mem_singleton] at hw
    subst hw
    exact absurd hc (by simp)
  | cons a t ih =>
    intro w hw c hc
    rw [splitSep] at hw
    split at hw
    · rcases List.mem_cons.mp hw with h1 | h1
      · subst h1; simp at hc
      · exact List.mem_cons_of_mem a (ih w h1 c hc)
    · cases hsp : splitSep sep t with
      | nil =>
        rw [hsp] at hw
        simp at hw
        subst hw
        simp only [List.mem_singleton] at hc
        subst hc
        exact List.mem_cons_self _ _
      | cons w0 ws =>
        rw [hsp] at hw
        rcases List.mem_cons.mp hw with h1 | h1
        · subst h1
          rcases List.mem_cons.mp hc with h2 | h2
          · subst h2; exact List.mem_cons_self _ _
          · exact List.mem_cons_of_mem a
              (ih w0 (by rw [hsp]; exact List.mem_cons_self _ _) c h2)
        · exact List.mem_cons_of_mem a
            (ih w (by rw [hsp]; exact List.mem_cons_of_mem _ h1) c hc)

theorem mem_of_mem_truncLoop (sep : Char) (maxLen : Nat) :
    ∀ (ws : List (List Char)) (r : List Char) (c : Char),
      c ∈ truncLoop sep maxLen ws r →
      c ∈ r ∨ c = sep ∨ ∃ w ∈ ws, c ∈ w := by
  intro ws
  induction ws with
  | nil => intro r c h; left; simpa [truncLoop] using h
  | cons w ws ih =>
    intro r c h
    simp only [truncLoop] at h
    split at h
    · split at h
      · left; exact h
      · rcases ih _ c h with h1 | h1 | ⟨w1, hw1, hc1⟩
        · rcases List.mem_append.mp h1 with h2 | h2
          · rcases List.mem_append.mp h2 with h3 | h3
            · left; exact h3
            · simp at h3
          · right; right; exact ⟨w, List.mem_cons_self _ _, h2⟩
        · right; left; exact h1
        · right; right; exact ⟨w1, List.mem_cons_of_mem _ hw1, hc1⟩
    · split at h
      · left; exact h
      · rcases ih _ c h with h1 | h1 | ⟨w1, hw1, hc1⟩
        · rcases List.mem_append.mp h1 with h2 | h2
          · rcases List.mem_append.mp h2 with h3 | h3
            · left; exact h3
            · right; left; simpa using h3
          · right; right; exact ⟨w, List.mem_cons_self _ _, h2⟩
        · right; left; exact h1
        · right; right; exact ⟨w1, List.mem_cons_of_mem _ hw1, hc1⟩

theorem mem_of_mem_limitLength (sep : Char) (maxLen : Nat) (l : List Char)
    (c : Char) (h : c ∈ limitLength sep maxLen l) : c ∈ l ∨ c = sep := by
  simp only [limitLength] at h
  split at h
  · split at h
    · left; exact List.take_subset _ _ h
    · rcases mem_of_mem_truncLoop sep maxLen _ [] c h with h1 | h1 | ⟨w, hw, hc⟩
      · simp at h1
      · right; exact h1
      · left; exact mem_of_mem_splitSep sep l w hw c hc
  · left; exact h

theorem mem_of_mem_orUnnamed {l : List Char} {c : Char} (h : c ∈ orUnnamed l) :
    c ∈ l ∨ c ∈ unnamedStem := by
  simp only [orUnnamed] at h
  split at h
  · right; exact h
  · left; exact h

theorem mem_cleanupStage (sep : Char) (l : List Char) (c : Char)
    (h : c ∈ cleanupStage sep l) :
    c.isAlphanum = true ∨ c = sep ∨ (pyIsSpace c = true ∧ c ≠ ' ') := by
  have h1 := mem_of_mem_collapseSep sep _ c (mem_of_mem_stripSep h)
  rcases List.mem_map.mp h1 with ⟨a, ha, rfl⟩
  have h2 := (List.mem_filter.mp ha).2
  by_cases haSp : a = ' '
  · right; left; simp [haSp]
  · rw [if_neg haSp]
    have h4 : a.isAlphanum = true ∨ pyIsSpace a = true := by simpa using h2
    rcases h4 with h3 | h3
    · left; exact h3
    · right; right; exact ⟨h3, haSp⟩

theorem sanitizeStem_cleanup_chars (p : Policy) (hp : p.pattern_cleanup = true)
    (d : List Char) (c : Char) (hc : c ∈ sanitizeStem p d) :
    c.isAlphanum = true ∨ c = p.replace_spaces_with ∨
      (pyIsSpace c = true ∧ c ≠ ' ') := by
  have hall : ∀ x ∈ unnamedStem, x.isAlphanum = true := by decide
  simp only [sanitizeStem, hp, if_true] at hc
  rcases mem_of_mem_orUnnamed hc with h | h
  · rcases mem_of_mem_limitLength _ _ _ c h with h1 | h1
    · exact mem_cleanupStage _ _ c h1
    · right; left; exact h1
  · left; exact hall c h

theorem renameLoop_sum (rs : List Bool) :
    ∀ (p fl : Nat), (renameLoop rs p fl).1 + (renameLoop rs p fl).2 =
      p + fl + rs.length := by
  induction rs with
  | nil => intro p fl; simp [renameLoop]
  | cons r rs ih =>
    intro p fl
    simp only [renameLoop]
    split
    · rw [ih]; simp; omega
    · rw [ih]; simp; omega

end Renamer
/-- C1: starting from a state where src exists, dst does not, and no
backup is configured, every execution path of safe_file_move (success,
destination-exists failure, copy failure, or delete-original failure
after exhausting retries) ends with exactly one of src and dst existing;
in particular never both absent. -/
theorem c1_mover_invariant (env : FileOps.MoveEnv) (confirmOverwrites : Bool)
    (maxRetries : Nat) :
    (FileOps.safe_file_move env confirmOverwrites maxRetries
        ⟨true, false, 0⟩).2.srcEx =
      !(FileOps.safe_file_move env confirmOverwrites maxRetries
        ⟨true, false, 0⟩).2.dstEx := by
  unfold FileOps.safe_file_move
  simpa using FileOps.moveGo_src_ne_dst env maxRetries 0 ⟨true, false, 0⟩ rfl rfl

/-- C2 counterexample: against a service whose every response has status
500, generate_filename with the default retry_attempts = 3 raises
OllamaConnectionError after a single HTTP request, not after three: the
server-error exception raised on a 500 status is not among the caught
request exceptions, so it propagates on the first attempt. -/
theorem c2_counterexample :
    OllamaClient.generate_filename
        (fun _ => .httpResponse 500 (.field "x")) 3 =
      (.error .connectionError, 1) ∧ (1 : Nat) ≠ 3 := by
  constructor
  · rfl
  · decide

/-- C2 amended: against a service whose every HTTP POST returns status
500, generate_filename with any positive retry_attempts issues exactly
one request and immediately raises a connection/service error; the
configured retry count and inter-attempt delay apply only to timeouts,
connection failures and other request exceptions, not to 5xx statuses. -/
theorem c2_amended (body : OllamaClient.RespBody) (n : Nat) (h : 1 ≤ n) :
    OllamaClient.generate_filename (fun _ => .httpResponse 500 body) n =
      (.error .connectionError, 1) := by
  match n, h with
  | m + 1, _ =>
    simp [OllamaClient.generate_filename, OllamaClient.generateGo,
      OllamaClient.handleResponse]

/-- Witness for c2_amended at retry_attempts = 3 and a concrete body. -/
theorem c2_amended_witness :
    (1 : Nat) ≤ 3 ∧
      OllamaClient.generate_filename
          (fun _ => .httpResponse 500 (.field "x")) 3 =
        (.error .connectionError, 1) :=
  ⟨by decide, c2_amended (.field "x") 3 (by decide)⟩

/-- C3 counterexample: with max_length = 3 (policy otherwise default)
and the empty description, sanitize_filename returns unnamed.jpg whose
stem has length 7, exceeding max_length: the placeholder substitution
happens after the length limit and is not itself truncated. -/
theorem c3_counterexample :
    Renamer.sanitize_filename ⟨true, 3, true, '-', .lower⟩ [] ".jpg".data =
      "unnamed.jpg".data ∧
    ¬((Renamer.sanitizeStem ⟨true, 3, true, '-', .lower⟩ []).length ≤ 3) := by
  constructor
  · rfl
  · decide

/-- C3 amended: for every description, extension and policy, the output
of sanitize_filename is the sanitized stem followed by the supplied
extension, the stem is non-empty, and the stem either has length at
most max_length or is exactly the placeholder stem unnamed (of length
7) substituted when the cleaned, truncated name is empty — the
placeholder case is the one exceeding small max_length values. -/
theorem c3_amended (p : Renamer.Policy) (d ext : List Char) :
    Renamer.sanitize_filename p d ext = Renamer.sanitizeStem p d ++ ext ∧
    Renamer.sanitizeStem p d ≠ [] ∧
    ((Renamer.sanitizeStem p d).length ≤ p.max_length ∨
      Renamer.sanitizeStem p d = Renamer.unnamedStem) := by
  refine ⟨rfl, ?_, ?_⟩
  · exact Renamer.stem_final_ne_nil _ _ _
  · exact Renamer.stem_final_bound _ _ _

/-- C4 counterexample: with the default policy (pattern cleanup on,
separator dash) the input a TAB b sanitizes to a stem still containing
the tab character, which is neither alphanumeric nor the separator:
line 81 of renamer.py replaces only literal spaces, and the cleanup
regex of line 79 deliberately keeps all whitespace. -/
theorem c4_counterexample :
    Renamer.sanitizeStem Renamer.defaultPolicy ['a', '\t', 'b'] =
        ['a', '\t', 'b'] ∧
      '\t' ∈ Renamer.sanitizeStem Renamer.defaultPolicy ['a', '\t', 'b'] ∧
      ¬('\t'.isAlphanum = true ∨ '\t' = '-') := by
  refine ⟨by decide, by decide, by decide⟩

/-- C4 amended: when pattern cleanup is enabled the sanitized stem
contains only ASCII alphanumerics, the configured separator, and
whitespace characters other than the space character (tab, newline,
carriage return, vertical tab, form feed survive cleanup because only
literal spaces are replaced by the separator); for inputs whose
whitespace consists solely of spaces this reduces to alphanumerics plus
separator. -/
theorem c4_amended (ml : Nat) (rp : Bool) (sep : Char) (cc : Renamer.CaseConv)
    (d : List Char) :
    (Renamer.sanitizeStem ⟨true, ml, rp, sep, cc⟩ d).all
      (fun c => c.isAlphanum || c == sep ||
        (Renamer.pyIsSpace c && !(c == ' '))) = true := by
  rw [List.all_eq_true]
  intro c hc
  rcases Renamer.sanitizeStem_cleanup_chars ⟨true, ml, rp, sep, cc⟩ rfl d c hc with
    h | h | ⟨h1, h2⟩
  · simp [h]
  · simp [h]
  · simp [h1, h2]

/-- Spec scenario 1: the example input from the spec produces the
expected stem under the default policy. -/
example :
    Renamer.sanitize_filename Renamer.defaultPolicy
        "A red sunset over the ocean!!".data ".jpg".data =
      "a-red-sunset-over-the-ocean.jpg".data := by
  rfl

/-- Spec scenario 2: the empty description yields unnamed.jpg. -/
example :
    Renamer.sanitize_filename Renamer.defaultPolicy [] ".jpg".data =
      "unnamed.jpg".data := by
  rfl

/-- C5 counterexample: with photo.jpg existing and the filesystem
unchanged, two sequential invocations of get_unique_filename for the
same candidate return the same path photo_1.jpg: the resolver keeps no
state between calls, so the second call does not differ from the first
as the claim requires. -/
theorem c5_counterexample :
    FileOps.get_unique_filename ["photo.jpg"] "photo" ".jpg" =
        some "photo_1.jpg" ∧
      ¬(FileOps.get_unique_filename ["photo.jpg"] "photo" ".jpg" ≠
        FileOps.get_unique_filename ["photo.jpg"] "photo" ".jpg") := by
  constructor
  · rfl
  · intro h; exact h rfl

/-- C5 amended: get_unique_filename is a pure function of the current
filesystem contents, so a second call with the filesystem unchanged
returns the same path as the first (photo_1.jpg twice in the spec
scenario), and any returned path does not exist in the current
filesystem — uniqueness is only guaranteed against existing files, not
across sequential resolutions. -/
theorem c5_amended (fs : List String) (stem ext r : String)
    (h : FileOps.get_unique_filename fs stem ext = some r) :
    fs.contains r = false ∧
      FileOps.get_unique_filename fs stem ext = some r :=
  ⟨FileOps.get_unique_filename_not_mem fs stem ext r h, h⟩

/-- Witness for c5_amended at the spec scenario: photo.jpg exists and
resolution yields photo_1.jpg. -/
theorem c5_amended_witness :
    FileOps.get_unique_filename ["photo.jpg"] "photo" ".jpg" =
        some "photo_1.jpg" ∧
      (["photo.jpg"].contains "photo_1.jpg" = false ∧
        FileOps.get_unique_filename ["photo.jpg"] "photo" ".jpg" =
          some "photo_1.jpg") :=
  ⟨rfl, c5_amended ["photo.jpg"] "photo" ".jpg" "photo_1.jpg" rfl⟩

/-- C6: move(a.jpg, b.jpg) with max_retries = 3 where the delete-original
step fails twice then succeeds: the call returns success, the final state
has dst existing and src absent, and exactly 3 copy operations happened. -/
theorem c6_retry_scenario :
    FileOps.safe_file_move c6Env true 3 ⟨true, false, 0⟩ =
      (FileOps.MoveResult.success, ⟨false, true, 3⟩) := by
  decide

/-- C7 counterexample: for a path that does not exist and has an
unsupported extension, FileOperations.verify_image raises the
unsupported-format error, not the non-existence error: its extension
check precedes its existence check. -/
theorem c7_counterexample :
    FileOps.verify_image [".png", ".jpg", ".jpeg", ".gif", ".bmp"] 100
        ⟨false, false, ".xyz", 0, false⟩ =
      .error .unsupportedFormat ∧
    FileOps.verify_image [".png", ".jpg", ".jpeg", ".gif", ".bmp"] 100
        ⟨false, false, ".xyz", 0, false⟩ ≠
      .error .fileNotFound := by
  constructor
  · rfl
  · intro h
    exact absurd (Except.error.inj h) (by decide)

/-- C7 amended: the two validators order their checks differently.
FileOperations.verify_image checks the supported extension first, so a
nonexistent path with an unsupported extension yields the
unsupported-format error; ImageProcessor.validate_image_file checks
existence, regular-file-ness, extension, size in that order (and has
no decodability step), so there a nonexistent path yields the
non-existence error regardless of extension. -/
theorem c7_amended (sup : List String) (maxFS : Nat) (f : FileInfo)
    (hsup : FileOps.is_supported_image sup f.suffix = false)
    (hex : f.ex = false) :
    FileOps.verify_image sup maxFS f = .error .unsupportedFormat ∧
      MetaProcessor.validate_image_file sup maxFS f =
        .error .imageNotFound := by
  constructor
  · simp [FileOps.verify_image, hsup]
  · simp [MetaProcessor.validate_image_file, hex]

/-- Witness for c7_amended at a nonexistent path with extension .xyz. -/
theorem c7_amended_witness :
    (FileOps.is_supported_image [".png", ".jpg", ".jpeg", ".gif", ".bmp"]
          (FileInfo.suffix ⟨false, false, ".xyz", 0, false⟩) = false ∧
        FileInfo.ex ⟨false, false, ".xyz", 0, false⟩ = false) ∧
      (FileOps.verify_image [".png", ".jpg", ".jpeg", ".gif", ".bmp"] 100
            ⟨false, false, ".xyz", 0, false⟩ =
          .error .unsupportedFormat ∧
        MetaProcessor.validate_image_file
            [".png", ".jpg", ".jpeg", ".gif", ".bmp"] 100
            ⟨false, false, ".xyz", 0, false⟩ =
          .error .imageNotFound) :=
  ⟨⟨by decide, rfl⟩,
    c7_amended [".png", ".jpg", ".jpeg", ".gif", ".bmp"] 100
      ⟨false, false, ".xyz", 0, false⟩ (by decide) rfl⟩

/-- C8: for a valid image whose path already has a non-empty description
in the database, process_single_image returns success without invoking
the description provider and without changing the database or the file
metadata: the skip happens right after validation. -/
theorem c8_skip_existing (sup : List String) (maxFS : Nat) (f : FileInfo)
    (path : String) (gen : Except OllamaClient.OllamaError String)
    (writeOk : Nat → Bool) (retryAttempts now : Nat)
    (s : MetaProcessor.MetaState)
    (hval : MetaProcessor.validate_image_file sup maxFS f = .ok ())
    (hdb : MetaProcessor.truthy (DB.get_description s.table path) = true) :
    MetaProcessor.process_single_image sup maxFS f path gen writeOk
        retryAttempts now s =
      (true, s, false) := by
  simp [MetaProcessor.process_single_image, hval, hdb]

/-- Witness for c8_skip_existing: a valid .jpg whose path has the
description desc stored in the database. -/
theorem c8_skip_existing_witness :
    (MetaProcessor.validate_image_file [".jpg"] 100
          ⟨true, true, ".jpg", 10, true⟩ = .ok () ∧
        MetaProcessor.truthy
          (DB.get_description ⟨[⟨0, "/a.jpg", "desc", 5, 5⟩], 1⟩ "/a.jpg") =
          true) ∧
      MetaProcessor.process_single_image [".jpg"] 100
          ⟨true, true, ".jpg", 10, true⟩ "/a.jpg" (.ok "x") (fun _ => true)
          3 9 ⟨⟨[⟨0, "/a.jpg", "desc", 5, 5⟩], 1⟩, none⟩ =
        (true, ⟨⟨[⟨0, "/a.jpg", "desc", 5, 5⟩], 1⟩, none⟩, false) :=
  ⟨⟨rfl, by decide⟩,
    c8_skip_existing [".jpg"] 100 ⟨true, true, ".jpg", 10, true⟩ "/a.jpg"
      (.ok "x") (fun _ => true) 3 9 ⟨⟨[⟨0, "/a.jpg", "desc", 5, 5⟩], 1⟩, none⟩
      rfl (by decide)⟩

/-- C9: INSERT OR REPLACE deletes the old row and inserts a new one:
after save_description on a path already present, the table holds a row
for the path carrying the new description, created_at and updated_at
both equal to the time of this call (the original creation timestamp is
not preserved), and a fresh autoincrement id different from the old
id of the old row; the old row itself is gone. -/
theorem c9_replace_semantics (t : DB.ImagesTable) (path desc : String)
    (now : Nat) (hwf : DB.WF t) (rold : DB.ImageRow)
    (hmem : rold ∈ t.rows) (hpath : rold.file_path = path) :
    (∃ rnew : DB.ImageRow,
        rnew ∈ (DB.save_description t path desc now).rows ∧
        rnew.file_path = path ∧ rnew.description = desc ∧
        rnew.created_at = now ∧ rnew.updated_at = now ∧
        rnew.id = t.nextId ∧ rnew.id ≠ rold.id) ∧
      rold ∉ (DB.save_description t path desc now).rows := by
  constructor
  · refine ⟨⟨t.nextId, path, desc, now, now⟩, ?_, rfl, rfl, rfl, rfl, rfl, ?_⟩
    · simp [DB.save_description]
    · have := hwf rold hmem
      show t.nextId ≠ rold.id
      omega
  · intro hin
    simp only [DB.save_description, List.mem_append, List.mem_filter,
      List.mem_singleton] at hin
    rcases hin with ⟨_, hf⟩ | hnew
    · simp [hpath] at hf
    · have hlt := hwf rold hmem
      have : rold.id = t.nextId := by rw [hnew]
      omega

/-- Witness for c9_replace_semantics: a one-row table for path /a.jpg
updated with a new description at time 9. -/
theorem c9_replace_semantics_witness :
    (DB.WF ⟨[⟨0, "/a.jpg", "old", 5, 5⟩], 1⟩ ∧
        (⟨0, "/a.jpg", "old", 5, 5⟩ : DB.ImageRow) ∈
          (⟨[⟨0, "/a.jpg", "old", 5, 5⟩], 1⟩ : DB.ImagesTable).rows ∧
        (⟨0, "/a.jpg", "old", 5, 5⟩ : DB.ImageRow).file_path = "/a.jpg") ∧
      ((∃ rnew : DB.ImageRow,
          rnew ∈ (DB.save_description ⟨[⟨0, "/a.jpg", "old", 5, 5⟩], 1⟩
            "/a.jpg" "new" 9).rows ∧
          rnew.file_path = "/a.jpg" ∧ rnew.description = "new" ∧
          rnew.created_at = 9 ∧ rnew.updated_at = 9 ∧
          rnew.id = (⟨[⟨0, "/a.jpg", "old", 5, 5⟩], 1⟩ : DB.ImagesTable).nextId ∧
          rnew.id ≠ (⟨0, "/a.jpg", "old", 5, 5⟩ : DB.ImageRow).id) ∧
        (⟨0, "/a.jpg", "old", 5, 5⟩ : DB.ImageRow) ∉
          (DB.save_description ⟨[⟨0, "/a.jpg", "old", 5, 5⟩], 1⟩
            "/a.jpg" "new" 9).rows) :=
  ⟨⟨by intro r hr; simp at hr; subst hr; decide, by simp, rfl⟩,
    c9_replace_semantics ⟨[⟨0, "/a.jpg", "old", 5, 5⟩], 1⟩ "/a.jpg" "new" 9
      (by intro r hr; simp at hr; subst hr; decide)
      ⟨0, "/a.jpg", "old", 5, 5⟩ (by simp) rfl⟩

/-- C10: the statistics of every rename_directory run satisfy
total_files = processed + failed with skipped always 0 (every
discovered file is counted one way or the other), and a file whose
generated filename equals its current filename is reported as success
(hence counted as processed), never as skipped. -/
theorem c10_stats_identity (files : List Renamer.RenameInput) :
    ((Renamer.rename_directory files).total_files =
        (Renamer.rename_directory files).processed +
          (Renamer.rename_directory files).failed ∧
      (Renamer.rename_directory files).skipped = 0) ∧
    ∀ inp : Renamer.RenameInput,
      inp.f.ex = true → inp.f.isFile = true →
      FileOps.is_supported_image inp.sup inp.f.suffix = true →
      Renamer.generate_filename inp.verifyFirst inp.sup inp.maxFS inp.f
          inp.describe inp.policy = some inp.curName →
      Renamer.rename_single_image inp = true := by
  constructor
  · simp only [Renamer.rename_directory]
    split
    · simp
    · constructor
      · have := Renamer.renameLoop_sum
          (files.map Renamer.rename_single_image) 0 0
        simp only [List.length_map] at this
        simp [this]
      · rfl
  · intro inp hex hfile hsup hgen
    simp [Renamer.rename_single_image, hex, hfile, hsup, hgen]

/-- Witness for c10_stats_identity: a singleton directory whose one
file generates a name equal to its current name. -/
theorem c10_stats_identity_witness :
    ((Renamer.rename_directory []).skipped = 0 ∧
      ((⟨⟨true, true, ".jpg", 0, true⟩, "a-b.jpg".data, true, [".jpg"], 10,
          .ok "a b", ⟨true, 100, true, '-', .lower⟩, false,
          .moveFailed⟩ : Renamer.RenameInput).f.ex = true ∧
        Renamer.generate_filename true [".jpg"] 10
            ⟨true, true, ".jpg", 0, true⟩ (.ok "a b")
            ⟨true, 100, true, '-', .lower⟩ = some "a-b.jpg".data) ∧
      Renamer.rename_single_image
        ⟨⟨true, true, ".jpg", 0, true⟩, "a-b.jpg".data, true, [".jpg"], 10,
          .ok "a b", ⟨true, 100, true, '-', .lower⟩, false,
          .moveFailed⟩ = true) :=
  ⟨(c10_stats_identity []).1.2,
    ⟨rfl, rfl⟩,
    (c10_stats_identity []).2
      ⟨⟨true, true, ".jpg", 0, true⟩, "a-b.jpg".data, true, [".jpg"], 10,
        .ok "a b", ⟨true, 100, true, '-', .lower⟩, false, .moveFailed⟩
      rfl rfl (by decide) rfl⟩
